import Mathlib

/-!
Verification of the OpenBSD clock driver (`sys_openbsd.c`) of chrony.

Shallow embedding conventions:
* C `double` values (ppm frequencies, timestamps, elapsed times) are
  modelled as exact rationals `ℚ`; `int64_t` kernel fixed-point values as `ℤ`.
* The C cast `(int64_t)d` of a double truncates toward zero; it is modelled
  by `c_trunc` on `ℚ`.
* External collaborators (the privileged-operations helper, the scheduler,
  configuration, logging) are modelled as explicit inputs/outputs: the
  kernel frequency word is threaded as state, the success of the privileged
  time-set call is an environment bit, and debug-log lines and dispersion
  notifications are accumulated in lists so theorems can observe them.
-/

namespace SysOpenBSD

/-! ## Frequency steering (`read_frequency` / `set_frequency`) -/

/-- The fixed-point scale factor `1000LL << 32` used by the OpenBSD
`adjfreq` interface, as a rational. -/
def fscale : ℚ := 1000 * 2 ^ 32

/-- C conversion of a `double` to `int64_t`: truncation toward zero. -/
def c_trunc (q : ℚ) : ℤ := if 0 ≤ q then ⌊q⌋ else ⌈q⌉

/-- Function `read_frequency`: the current kernel fixed-point frequency word
`freq` converted back to ppm, `(double)-freq / (1000LL << 32)`. -/
def read_frequency (freq : ℤ) : ℚ := -(freq : ℚ) / fscale

/-- Function `set_frequency`: computes `freq = -freq_ppm * (1000LL << 32)` (with the
C double→int64 truncating cast), commits it as the new kernel word, and
returns `read_frequency()` of the kernel state now in effect.
Result: (new kernel word, returned ppm). -/
def set_frequency (freq_ppm : ℚ) : ℤ × ℚ :=
  let freq := c_trunc (-freq_ppm * fscale)
  (freq, read_frequency freq)

lemma abs_c_trunc_sub_lt_one (q : ℚ) : |(c_trunc q : ℚ) - q| < 1 := by
  unfold c_trunc
  split_ifs with h
  · have h1 : (⌊q⌋ : ℚ) ≤ q := Int.floor_le q
    have h2 : q < ⌊q⌋ + 1 := Int.lt_floor_add_one q
    rw [abs_sub_comm, abs_of_nonneg (by linarith)]
    linarith
  · have h1 : q ≤ (⌈q⌉ : ℚ) := Int.le_ceil q
    have h2 : (⌈q⌉ : ℚ) < q + 1 := Int.ceil_lt_add_one q
    rw [abs_of_nonneg (by linarith)]
    linarith

lemma fscale_pos : (0 : ℚ) < fscale := by norm_num [fscale]

lemma c_trunc_one_third : c_trunc (-(1/3) * fscale) = -1431655765333 := by
  have h : (-(1/3) * fscale : ℚ) = -4294967296000/3 := by norm_num [fscale]
  rw [h]
  unfold c_trunc
  rw [if_neg (by norm_num)]
  rw [Int.ceil_eq_iff]
  constructor <;> norm_num

/-- The round trip at ppm = 1/3 is not exact. -/
lemma one_third_roundtrip_ne : (set_frequency (1/3)).2 ≠ 1/3 := by
  show read_frequency (c_trunc (-(1/3) * fscale)) ≠ 1/3
  rw [c_trunc_one_third]
  unfold read_frequency fscale
  norm_num

/-- C5: for every ppm in [-100000, 100000], setting then reading the
frequency returns a value within one quantization unit `1/(1000·2^32)` of
the input, and exact equality does not hold in general (witnessed at
ppm = 1/3). -/
theorem roundtrip_within_one_unit :
    (∀ ppm : ℚ, -100000 ≤ ppm → ppm ≤ 100000 →
      |(set_frequency ppm).2 - ppm| ≤ 1 / fscale) ∧
    (∃ ppm : ℚ, -100000 ≤ ppm ∧ ppm ≤ 100000 ∧ (set_frequency ppm).2 ≠ ppm) := by
  constructor
  · intro ppm _ _
    have hS := fscale_pos
    have key : (set_frequency ppm).2 - ppm =
        -(((c_trunc (-ppm * fscale) : ℚ)) - (-ppm * fscale)) / fscale := by
      simp only [set_frequency, read_frequency]
      field_simp
      ring
    rw [key, abs_div, abs_neg, abs_of_pos hS]
    exact le_of_lt ((div_lt_div_iff_of_pos_right hS).mpr
      (abs_c_trunc_sub_lt_one (-ppm * fscale)))
  · exact ⟨1/3, by norm_num, by norm_num, one_third_roundtrip_ne⟩

/-- C5 witness: the round-trip bound instantiated at ppm = 1/3. -/
theorem roundtrip_within_one_unit_witness :
    |(set_frequency (1/3)).2 - 1/3| ≤ 1 / fscale :=
  roundtrip_within_one_unit.1 (1/3) (by norm_num) (by norm_num)

/-- C6: `set_frequency` stores the sign-inverted fixed-point conversion of
the requested ppm as the kernel word, and the value it returns is exactly
`read_frequency` of that kernel state (the frequency actually in effect,
i.e. `-k/(1000·2^32)` for kernel word `k`), which can differ from the
requested argument. -/
theorem set_frequency_returns_effective :
    (∀ ppm : ℚ, (set_frequency ppm).1 = c_trunc (-ppm * fscale)) ∧
    (∀ ppm : ℚ, (set_frequency ppm).2 = read_frequency (set_frequency ppm).1) ∧
    (∀ k : ℤ, read_frequency k = -(k : ℚ) / fscale) ∧
    (∃ ppm : ℚ, (set_frequency ppm).2 ≠ ppm) := by
  exact ⟨fun ppm => rfl, fun ppm => rfl, fun k => rfl, ⟨1/3, one_third_roundtrip_ne⟩⟩

/-! ## RTC resynchronizer (`synchronise_rtc` / `set_sync_status`)

Timestamps (`struct timespec` values, and the `double` results of
`UTI_DiffTimespecsToDouble`) are modelled as rationals.  The environment of
one status-report invocation bundles the values returned by the external
collaborators (`CNF_GetRtcSync`, `SCH_GetLastEventTime`, `LCL_ReadRawTime`
before and after the commit) and whether the privileged `PRV_SetTime` call
succeeds.  The driver state carries `last_rtc_sync` plus observables: a
count of commit attempts, the hardware-RTC contents, the dispersion
notifications issued and the debug-log lines emitted. -/

/-- Constant `RTC_SYNC_INTERVAL (60 * 60.0)`. -/
def RTC_SYNC_INTERVAL : ℚ := 60 * 60

/-- Environment of one `set_sync_status` invocation. -/
structure RtcEnv where
  /-- Result of `CNF_GetRtcSync()`. -/
  rtcSyncEnabled : Bool
  /-- Timestamp from `SCH_GetLastEventTime(NULL, NULL, &now)`. -/
  now : ℚ
  /-- Result of `LCL_ReadRawTime(&ts)` before the commit. -/
  raw1 : ℚ
  /-- Result of `LCL_ReadRawTime(&new_ts)` after the commit. -/
  raw2 : ℚ
  /-- Whether `PRV_SetTime(CLOCK_REALTIME, &ts)` returns ≥ 0. -/
  commitOk : Bool
deriving DecidableEq

/-- Driver state around the RTC resynchronizer, with observables. -/
structure RtcState where
  /-- The `static struct timespec last_rtc_sync`. -/
  last_rtc_sync : ℚ
  /-- Number of `PRV_SetTime` calls issued (commit attempts). -/
  commit_attempts : ℕ
  /-- Hardware RTC contents (`none` = never written). -/
  rtc_time : Option ℚ
  /-- Arguments of `lcl_InvokeDispersionNotifyHandlers` calls, in order. -/
  dispersions : List ℚ
  /-- The `DEBUG_LOG` lines emitted, in order. -/
  debug_logs : List String
deriving DecidableEq

/-- Function `synchronise_rtc`: reads raw time `ts`, attempts the privileged
time-set; on failure logs at debug level and returns; on success re-reads
raw time `new_ts` and reports `|new_ts - ts|` to the dispersion handlers. -/
def synchronise_rtc (env : RtcEnv) (st : RtcState) : RtcState :=
  let ts := env.raw1
  let st1 := { st with commit_attempts := st.commit_attempts + 1 }
  if env.commitOk = false then
    { st1 with debug_logs := st1.debug_logs ++ ["clock_settime() failed"] }
  else
    let new_ts := env.raw2
    let err := new_ts - ts
    { st1 with rtc_time := some ts, dispersions := st1.dispersions ++ [|err|] }

/-- Function `set_sync_status`: gates on `synchronised` and `CNF_GetRtcSync()`,
computes the elapsed scheduler time since `last_rtc_sync`, and when its
absolute value reaches `RTC_SYNC_INTERVAL` runs `synchronise_rtc` and then
unconditionally sets `last_rtc_sync = now` and logs "rtc synchronised". -/
def set_sync_status (env : RtcEnv) (synchronised : Bool)
    (_est_error _max_error : ℚ) (st : RtcState) : RtcState :=
  if synchronised = false ∨ env.rtcSyncEnabled = false then st
  else
    let now := env.now
    let rtc_sync_elapsed := now - st.last_rtc_sync
    if |rtc_sync_elapsed| ≥ RTC_SYNC_INTERVAL then
      let st1 := synchronise_rtc env st
      { st1 with last_rtc_sync := now,
                 debug_logs := st1.debug_logs ++ ["rtc synchronised"] }
    else st

lemma set_sync_status_fire (env : RtcEnv) (e m : ℚ) (st : RtcState)
    (hen : env.rtcSyncEnabled = true)
    (hel : |env.now - st.last_rtc_sync| ≥ RTC_SYNC_INTERVAL) :
    set_sync_status env true e m st =
      { synchronise_rtc env st with
        last_rtc_sync := env.now,
        debug_logs := (synchronise_rtc env st).debug_logs ++ ["rtc synchronised"] } := by
  unfold set_sync_status
  rw [if_neg (by simp [hen]), if_pos hel]

lemma set_sync_status_no_fire (env : RtcEnv) (e m : ℚ) (st : RtcState)
    (h : ¬ |env.now - st.last_rtc_sync| ≥ RTC_SYNC_INTERVAL) :
    set_sync_status env true e m st = st := by
  unfold set_sync_status
  by_cases hen : env.rtcSyncEnabled = false
  · rw [if_pos (Or.inr hen)]
  · rw [if_neg (by simp [hen]), if_neg h]

lemma synchronise_rtc_attempts (env : RtcEnv) (st : RtcState) :
    (synchronise_rtc env st).commit_attempts = st.commit_attempts + 1 := by
  unfold synchronise_rtc
  split_ifs <;> rfl

/-- C1 counterexample: with the RTC commit failing (`commitOk = false`),
an eligible status report still rewrites `last_rtc_sync` (from 0 to 3600),
contradicting the claim that `last_sync_timestamp` is updated only after a
successful commit and that a failed cycle is retried at the next eligible
status report. -/
theorem rtc_commit_failure_updates_baseline :
    (set_sync_status ⟨true, 3600, 3600, 3600, false⟩ true 0 0
        ⟨0, 0, none, [], []⟩).debug_logs
      = ["clock_settime() failed", "rtc synchronised"] ∧
    (set_sync_status ⟨true, 3600, 3600, 3600, false⟩ true 0 0
        ⟨0, 0, none, [], []⟩).last_rtc_sync = 3600 ∧
    (3600 : ℚ) ≠ 0 := by
  have h := set_sync_status_fire ⟨true, 3600, 3600, 3600, false⟩ 0 0
    ⟨0, 0, none, [], []⟩ rfl (by norm_num [RTC_SYNC_INTERVAL, abs_of_nonneg])
  rw [h]
  refine ⟨?_, rfl, by norm_num⟩
  simp [synchronise_rtc]

/-- C1 (amended): when the hardware-clock commit fails on an eligible
status report, the driver logs "clock_settime() failed" at debug level and
abandons the cycle — no dispersion notification is issued and the RTC is
unchanged — but `last_rtc_sync` is still rewritten to the current scheduler
timestamp, so the commit is retried only after a fresh full 3600 s
interval, not at the next eligible status report. -/
theorem rtc_commit_failure_best_effort (env : RtcEnv) (e m : ℚ) (st : RtcState)
    (hfail : env.commitOk = false)
    (hen : env.rtcSyncEnabled = true)
    (hel : |env.now - st.last_rtc_sync| ≥ RTC_SYNC_INTERVAL) :
    (set_sync_status env true e m st).debug_logs
        = st.debug_logs ++ ["clock_settime() failed", "rtc synchronised"] ∧
    (set_sync_status env true e m st).dispersions = st.dispersions ∧
    (set_sync_status env true e m st).rtc_time = st.rtc_time ∧
    (set_sync_status env true e m st).last_rtc_sync = env.now := by
  rw [set_sync_status_fire env e m st hen hel]
  unfold synchronise_rtc
  rw [if_pos hfail]
  simp

/-- C1 witness: the amended behaviour at a concrete failing commit. -/
theorem rtc_commit_failure_best_effort_witness :
    (set_sync_status ⟨true, 7200, 1, 2, false⟩ true 0 0
        ⟨0, 0, none, [], []⟩).debug_logs
        = [] ++ ["clock_settime() failed", "rtc synchronised"] ∧
    (set_sync_status ⟨true, 7200, 1, 2, false⟩ true 0 0
        ⟨0, 0, none, [], []⟩).dispersions = [] ∧
    (set_sync_status ⟨true, 7200, 1, 2, false⟩ true 0 0
        ⟨0, 0, none, [], []⟩).rtc_time = none ∧
    (set_sync_status ⟨true, 7200, 1, 2, false⟩ true 0 0
        ⟨0, 0, none, [], []⟩).last_rtc_sync = 7200 :=
  rtc_commit_failure_best_effort ⟨true, 7200, 1, 2, false⟩ 0 0
    ⟨0, 0, none, [], []⟩ rfl rfl (by norm_num [RTC_SYNC_INTERVAL, abs_of_nonneg])

/-- C2: a commit is attempted only when `|now - last_rtc_sync| ≥ 3600`
(with the gates passed); an eligible report fires and sets the baseline to
`now`; hence after a firing report, any report within 3600 s of it changes
nothing (at most one commit per interval); and a backward jump of
magnitude ≥ 3600 s still fires (no indefinite lockout). -/
theorem rtc_rate_limiting :
    (∀ (env : RtcEnv) (s : Bool) (e m : ℚ) (st : RtcState),
       (set_sync_status env s e m st).commit_attempts ≠ st.commit_attempts →
       s = true ∧ env.rtcSyncEnabled = true ∧
         |env.now - st.last_rtc_sync| ≥ RTC_SYNC_INTERVAL) ∧
    (∀ (env : RtcEnv) (e m : ℚ) (st : RtcState),
       env.rtcSyncEnabled = true →
       |env.now - st.last_rtc_sync| ≥ RTC_SYNC_INTERVAL →
       (set_sync_status env true e m st).commit_attempts = st.commit_attempts + 1 ∧
       (set_sync_status env true e m st).last_rtc_sync = env.now) ∧
    (∀ (env1 env2 : RtcEnv) (e m : ℚ) (st : RtcState),
       env1.rtcSyncEnabled = true →
       |env1.now - st.last_rtc_sync| ≥ RTC_SYNC_INTERVAL →
       |env2.now - env1.now| < RTC_SYNC_INTERVAL →
       set_sync_status env2 true e m (set_sync_status env1 true e m st)
         = set_sync_status env1 true e m st) ∧
    (∀ (env : RtcEnv) (e m : ℚ) (st : RtcState),
       env.rtcSyncEnabled = true →
       env.now - st.last_rtc_sync ≤ -RTC_SYNC_INTERVAL →
       (set_sync_status env true e m st).commit_attempts = st.commit_attempts + 1) := by
  refine ⟨?_, ?_, ?_, ?_⟩
  · intro env s e m st hne
    by_cases hs : s = true
    · subst hs
      by_cases hen : env.rtcSyncEnabled = true
      · by_cases hel : |env.now - st.last_rtc_sync| ≥ RTC_SYNC_INTERVAL
        · exact ⟨rfl, hen, hel⟩
        · exact absurd (by rw [set_sync_status_no_fire env e m st hel]) hne
      · have hf : env.rtcSyncEnabled = false := by
          revert hen; cases env.rtcSyncEnabled <;> simp
        unfold set_sync_status at hne
        rw [if_pos (Or.inr hf)] at hne
        exact absurd rfl hne
    · have hf : s = false := by revert hs; cases s <;> simp
      unfold set_sync_status at hne
      rw [if_pos (Or.inl hf)] at hne
      exact absurd rfl hne
  · intro env e m st hen hel
    rw [set_sync_status_fire env e m st hen hel]
    exact ⟨synchronise_rtc_attempts env st, rfl⟩
  · intro env1 env2 e m st hen1 hel1 hlt
    have hlast : (set_sync_status env1 true e m st).last_rtc_sync = env1.now := by
      rw [set_sync_status_fire env1 e m st hen1 hel1]
    apply set_sync_status_no_fire
    rw [hlast]
    exact not_le.mpr hlt
  · intro env e m st hen hneg
    have hel : |env.now - st.last_rtc_sync| ≥ RTC_SYNC_INTERVAL :=
      le_abs.mpr (Or.inr (by linarith))
    rw [set_sync_status_fire env e m st hen hel]
    exact synchronise_rtc_attempts env st

/-- C2 witness: the firing branch at a concrete eligible report. -/
theorem rtc_rate_limiting_witness :
    (set_sync_status ⟨true, 3700, 0, 0, true⟩ true 0 0
        ⟨0, 0, none, [], []⟩).commit_attempts = 0 + 1 ∧
    (set_sync_status ⟨true, 3700, 0, 0, true⟩ true 0 0
        ⟨0, 0, none, [], []⟩).last_rtc_sync = 3700 :=
  rtc_rate_limiting.2.1 ⟨true, 3700, 0, 0, true⟩ 0 0 ⟨0, 0, none, [], []⟩
    rfl (by norm_num [RTC_SYNC_INTERVAL, abs_of_nonneg])

/-- C4: when the report is not synchronized or RTC sync is disabled, the
status callback is a complete no-op: the state (baseline, commit count,
RTC contents, dispersion notices, logs) is returned unchanged, whatever
the elapsed time. -/
theorem sync_status_gating (env : RtcEnv) (s : Bool) (e m : ℚ) (st : RtcState)
    (h : s = false ∨ env.rtcSyncEnabled = false) :
    set_sync_status env s e m st = st := by
  unfold set_sync_status
  rw [if_pos h]

/-- C4 witness: an unsynchronized report with a huge elapsed time changes
nothing. -/
theorem sync_status_gating_witness :
    set_sync_status ⟨true, 1000000, 0, 0, true⟩ false 0 0
        ⟨0, 5, some 1, [2], ["rtc synchronised"]⟩
      = ⟨0, 5, some 1, [2], ["rtc synchronised"]⟩ :=
  sync_status_gating ⟨true, 1000000, 0, 0, true⟩ false 0 0
    ⟨0, 5, some 1, [2], ["rtc synchronised"]⟩ (Or.inl rfl)

/-! ## Capability policy engine (`SYS_OpenBSD_EnableSystemCallFilter`)

The pledge promise tokens are modelled as an enumerated capability type
(`rpath`/`wpath`/`cpath` = file read/write/create, `inet` = network,
`unix` = unix-domain sockets, `dns` = DNS resolution, `sendfd`/`recvfd` =
descriptor passing, `settime` = time setting).  `LOG_FATAL` is modelled as
an `Except.error` carrying the message; a successful install returns the
exact capability set pledged.  The `pledge()` system call itself is assumed
to succeed (its failure is an environment fault, also fatal). -/

/-- The process role, as in `SYS_ProcessContext`. -/
inductive SYS_ProcessContext where
  | SYS_MAIN_PROCESS
  | SYS_PRIVOPS_HELPER
  | SYS_NTSKE_HELPER
deriving DecidableEq

/-- One pledge promise token. -/
inductive Capability where
  | stdio
  | rpath
  | wpath
  | cpath
  | inet
  | unix
  | dns
  | sendfd
  | recvfd
  | settime
deriving DecidableEq, Fintype

open Capability in
/-- Function `SYS_OpenBSD_EnableSystemCallFilter(level, context)`.  Inputs beyond
the two C arguments are the collaborator results: the number of NTS server
cert/key pairs (`CNF_GetNtsServerCertAndKeyFiles`), the NTS server helper
count (`CNF_GetNtsServerProcesses`), and the effective uid (`geteuid`). -/
def SYS_OpenBSD_EnableSystemCallFilter (level : ℤ) (context : SYS_ProcessContext)
    (ntsCertKeyPairs ntsServerProcesses : ℤ) (euid : ℕ) :
    Except String (Finset Capability) :=
  if level ≠ 1 ∧ context = .SYS_MAIN_PROCESS then
    .error "Unsupported filter level"
  else if context = .SYS_MAIN_PROCESS then
    if ntsCertKeyPairs > 0 ∧ ntsServerProcesses > 0 then
      if euid = 0 then
        .ok {stdio, rpath, wpath, cpath, inet, unix, dns, sendfd, settime}
      else
        .ok {stdio, rpath, wpath, cpath, inet, unix, dns, sendfd}
    else
      if euid = 0 then
        .ok {stdio, rpath, wpath, cpath, inet, unix, dns, settime}
      else
        .ok {stdio, rpath, wpath, cpath, inet, unix, dns}
  else if context = .SYS_PRIVOPS_HELPER then
    .ok {stdio, settime}
  else
    .ok {stdio, recvfd}

open Capability in
/-- C3: the Main-process capability set at the supported level 1.  With an
NTS-KE pool configured (≥ 1 cert/key pair and helper count > 0) and
euid = 0 the set is exactly {stdio, rpath, wpath, cpath, inet, unix, dns,
sendfd, settime}; non-root drops exactly `settime`; without a pool the set
drops exactly `sendfd` and keeps `settime` iff root. -/
theorem main_capability_sets (pairs procs : ℤ) (euid : ℕ) :
    (pairs > 0 → procs > 0 →
      SYS_OpenBSD_EnableSystemCallFilter 1 .SYS_MAIN_PROCESS pairs procs euid =
        .ok (if euid = 0 then
               {stdio, rpath, wpath, cpath, inet, unix, dns, sendfd, settime}
             else
               {stdio, rpath, wpath, cpath, inet, unix, dns, sendfd})) ∧
    (¬ (pairs > 0 ∧ procs > 0) →
      SYS_OpenBSD_EnableSystemCallFilter 1 .SYS_MAIN_PROCESS pairs procs euid =
        .ok (if euid = 0 then
               {stdio, rpath, wpath, cpath, inet, unix, dns, settime}
             else
               {stdio, rpath, wpath, cpath, inet, unix, dns})) := by
  unfold SYS_OpenBSD_EnableSystemCallFilter
  rw [if_neg (by simp)]
  rw [if_pos rfl]
  constructor
  · intro hp hq
    rw [if_pos ⟨hp, hq⟩]
    split_ifs <;> rfl
  · intro h
    rw [if_neg h]
    split_ifs <;> rfl

open Capability in
/-- C3 witness: concrete instances of both configuration branches. -/
theorem main_capability_sets_witness :
    (SYS_OpenBSD_EnableSystemCallFilter 1 .SYS_MAIN_PROCESS 1 1 0 =
      .ok (if (0 : ℕ) = 0 then
             {stdio, rpath, wpath, cpath, inet, unix, dns, sendfd, settime}
           else
             {stdio, rpath, wpath, cpath, inet, unix, dns, sendfd})) ∧
    (SYS_OpenBSD_EnableSystemCallFilter 1 .SYS_MAIN_PROCESS 0 1 0 =
      .ok (if (0 : ℕ) = 0 then
             {stdio, rpath, wpath, cpath, inet, unix, dns, settime}
           else
             {stdio, rpath, wpath, cpath, inet, unix, dns})) :=
  ⟨(main_capability_sets 1 1 0).1 (by norm_num) (by norm_num),
   (main_capability_sets 0 1 0).2 (by norm_num)⟩

/-- C7: in the Main process any requested restriction level other than 1
is fatal ("Unsupported filter level"): no capability set is installed,
whatever the configuration and privilege. -/
theorem unsupported_level_fatal (level : ℤ) (pairs procs : ℤ) (euid : ℕ)
    (h : level ≠ 1) :
    SYS_OpenBSD_EnableSystemCallFilter level .SYS_MAIN_PROCESS pairs procs euid =
      .error "Unsupported filter level" := by
  unfold SYS_OpenBSD_EnableSystemCallFilter
  rw [if_pos ⟨h, rfl⟩]

/-- C7 witness: level 2 in the Main process is fatal. -/
theorem unsupported_level_fatal_witness :
    SYS_OpenBSD_EnableSystemCallFilter 2 .SYS_MAIN_PROCESS 1 1 0 =
      .error "Unsupported filter level" :=
  unsupported_level_fatal 2 1 1 0 (by norm_num)

open Capability in
/-- C8: each helper role installs exactly its declared base set —
{stdio, settime} for the privileged helper and {stdio, recvfd} for the
NTS-KE helper — independent of the requested level, the NTS-KE
configuration and the effective uid. -/
theorem helper_capability_sets (level : ℤ) (pairs procs : ℤ) (euid : ℕ) :
    SYS_OpenBSD_EnableSystemCallFilter level .SYS_PRIVOPS_HELPER pairs procs euid =
      .ok {stdio, settime} ∧
    SYS_OpenBSD_EnableSystemCallFilter level .SYS_NTSKE_HELPER pairs procs euid =
      .ok {stdio, recvfd} := by
  unfold SYS_OpenBSD_EnableSystemCallFilter
  constructor
  · rw [if_neg (by simp), if_neg (by simp), if_pos rfl]
  · rw [if_neg (by simp), if_neg (by simp), if_neg (by simp)]

/-! ## Startup residue reset (`reset_adjtime_offset`) -/

/-- A `struct timeval`. -/
structure Timeval where
  tv_sec : ℤ
  tv_usec : ℤ
deriving DecidableEq

/-- The kernel `adjtime` state: the currently pending adjustment. -/
structure AdjtimeState where
  pending : Timeval
deriving DecidableEq

/-- Call `PRV_AdjustTime(&delta, NULL)`: `adjtime` replaces any pending
adjustment with `delta` (the old value is not requested here). -/
def PRV_AdjustTime (delta : Timeval) (_st : AdjtimeState) : AdjtimeState :=
  { pending := delta }

/-- Function `reset_adjtime_offset`: zeroes a `struct timeval` with `memset` and
commits it via `PRV_AdjustTime`. -/
def reset_adjtime_offset (st : AdjtimeState) : AdjtimeState :=
  PRV_AdjustTime ⟨0, 0⟩ st

/-- C9: the startup residue reset unconditionally commits a zero delta, so
it is idempotent: two calls in succession produce the same post-state as
one. -/
theorem reset_adjtime_offset_idempotent :
    (∀ st : AdjtimeState,
      reset_adjtime_offset (reset_adjtime_offset st) = reset_adjtime_offset st) ∧
    (∀ st : AdjtimeState, (reset_adjtime_offset st).pending = ⟨0, 0⟩) :=
  ⟨fun _ => rfl, fun _ => rfl⟩

/-! ## `clock_settime` override -/

/-- A `struct timespec`. -/
structure Timespec where
  tv_sec : ℤ
  tv_nsec : ℤ
deriving DecidableEq

/-- The `CLOCK_REALTIME` clock id. -/
def CLOCK_REALTIME : ℤ := 0

/-- Modelled from the spec: `UTI_TimespecToTimeval` lives in the utility
module, which is not part of this source file; the spec only says the
override "converts the timespec to a timeval", so seconds are kept and
nanoseconds are reduced to microseconds. -/
def UTI_TimespecToTimeval (ts : Timespec) : Timeval :=
  ⟨ts.tv_sec, ts.tv_nsec / 1000⟩

/-- The overriding `clock_settime`: rejects any clock other than
`CLOCK_REALTIME` with -1 (without touching the system clock), otherwise
converts the timespec and returns whatever `settimeofday` returns.
`settimeofday` is the OS primitive, passed in as a function from a timeval
and the current system clock to a return code and new system clock. -/
def clock_settime (settimeofday : Timeval → Timeval → ℤ × Timeval)
    (clock : ℤ) (now : Timespec) (sys : Timeval) : ℤ × Timeval :=
  if clock ≠ CLOCK_REALTIME then (-1, sys)
  else settimeofday (UTI_TimespecToTimeval now) sys

/-- C10: for any clock id other than `CLOCK_REALTIME` the override returns
-1 and the system clock is unchanged, whatever `settimeofday` would do
(it is never invoked); for `CLOCK_REALTIME` the result is exactly
`settimeofday` applied to the converted timespec. -/
theorem clock_settime_behaviour :
    (∀ (std : Timeval → Timeval → ℤ × Timeval) (clock : ℤ) (now : Timespec)
       (sys : Timeval), clock ≠ CLOCK_REALTIME →
       clock_settime std clock now sys = (-1, sys)) ∧
    (∀ (std : Timeval → Timeval → ℤ × Timeval) (now : Timespec) (sys : Timeval),
       clock_settime std CLOCK_REALTIME now sys =
         std (UTI_TimespecToTimeval now) sys) := by
  constructor
  · intro std clock now sys h
    unfold clock_settime
    rw [if_pos h]
  · intro std now sys
    unfold clock_settime
    rw [if_neg (by simp)]

/-- C10 witness: clock id 3 (a monotonic clock) is rejected with -1 even
though the supplied `settimeofday` would have changed the clock. -/
theorem clock_settime_behaviour_witness :
    clock_settime (fun tv _ => (0, tv)) 3 ⟨5, 999⟩ ⟨1, 1⟩ = (-1, ⟨1, 1⟩) :=
  clock_settime_behaviour.1 (fun tv _ => (0, tv)) 3 ⟨5, 999⟩ ⟨1, 1⟩
    (by norm_num [CLOCK_REALTIME])

end SysOpenBSD
